import Mathlib

/-!
Shallow embedding of `src/src/components/VoiceAgent.tsx` (the VoiceAgent /
"VoiceWidget" React component).

The component's reactive state (`useState` / `useRef` fields) becomes the
structure `AgentState`.  Asynchronous outcomes that the code observes —
the configured environment variables, the HTTP fetch result, teardown and
join failures, and the id of the freshly created Daily call frame — are
supplied by an oracle structure `World`.  The externally visible actions
(the HTTP POST, frame creation, leave/destroy/join calls, toasts) are
recorded in an effect trace, so that claims about "one network request"
or "teardown before creation" are statements about that trace.
-/

namespace VoiceAgent

/-- Speaker tag of a transcript entry (`"user" | "ai"` in the source). -/
inductive Speaker where
  | user
  | ai
deriving DecidableEq, Repr

/-- `TranscriptMessage` from the source: id, speaker, text, timestamp.
Wall-clock `Date` timestamps are modelled as naturals. -/
structure TranscriptMessage where
  id : String
  speaker : Speaker
  text : String
  timestamp : Nat
deriving DecidableEq, Repr

/-- The component's state: the `useState` fields (`isOpen`, `isConnected`,
`isConnecting`, `isMuted`, `transcript`, `callFrame`, `timer`, `inputText`)
together with the `useRef` re-entrancy lock `connectLockRef.current`
(field `connectLock`).  A live call-frame handle is identified by a `Nat`;
`callFrame` holds the stored handle, if any. -/
structure AgentState where
  isOpen : Bool
  isConnected : Bool
  isConnecting : Bool
  isMuted : Bool
  transcript : List TranscriptMessage
  callFrame : Option Nat
  timer : Nat
  inputText : String
  connectLock : Bool
deriving DecidableEq, Repr

/-- Initial values of the `useState`/`useRef` hooks. -/
def initState : AgentState :=
  { isOpen := false, isConnected := false, isConnecting := false,
    isMuted := false, transcript := [], callFrame := none, timer := 0,
    inputText := "", connectLock := false }

/-- A parsed JSON response body.  Only the fields the component reads are
modelled; a field that is absent from the JSON object is `none`. -/
structure ApiResponse where
  dailyRoom : Option String
  room_url : Option String
  roomUrl : Option String
  dailyToken : Option String
  token : Option String
deriving DecidableEq, Repr

/-- Outcome of the `fetch` call: either a non-ok response (status,
statusText, body text) or an ok response with a parsed JSON body. -/
inductive FetchResult where
  | httpError (status : Nat) (statusText : String) (body : String)
  | ok (data : ApiResponse)
deriving DecidableEq, Repr

/-- Oracle for one connection attempt: environment configuration
(`VITE_PIPECAT_ENDPOINT`, `VITE_PIPECAT_TOKEN`, absent = `none`), the fetch
outcome, whether `leave`/`destroy` on the stale frame reject, the id of
the frame `DailyIframe.createFrame` returns, and whether `join` rejects. -/
structure World where
  envEndpoint : Option String
  apiKey : Option String
  fetchResult : FetchResult
  leaveFails : Bool
  destroyFails : Bool
  newFrameId : Nat
  joinFails : Bool
deriving DecidableEq, Repr

/-- Externally visible actions of the component, in program order. -/
inductive Effect where
  | netRequest (endpoint : String) (authHeader : String)
  | frameLeave (frameId : Nat)
  | frameDestroy (frameId : Nat)
  | consoleError
  | frameCreated (frameId : Nat)
  | frameJoin (frameId : Nat) (url : String) (tok : String)
  | setLocalAudio (frameId : Nat) (enabled : Bool)
  | toastError (description : String)
deriving DecidableEq, Repr

/-- The errors thrown inside `startConversation`'s try block, plus the
rejection of `callFrame.leave()` in `endConversation`. -/
inductive VErr where
  | configurationError
  | requestError (status : Nat) (statusText : String) (body : String)
  | responseShapeError
  | joinError
  | leaveError
deriving DecidableEq, Repr

/-- The `message` of each thrown `Error`, as in the source.  A join
rejection carries an SDK-produced message; the catch block's toast falls
back to a fixed description, which is what we record. -/
def errMessage : VErr → String
  | VErr.configurationError => "VITE_PIPECAT_TOKEN is not configured in .env file"
  | VErr.requestError st stx body =>
      "API request failed: " ++ toString st ++ " " ++ stx ++ " - " ++ body
  | VErr.responseShapeError => "Missing room URL or token from API response"
  | VErr.joinError => "Could not start conversation"
  | VErr.leaveError => "leave failed"

/-- JavaScript truthiness of an optional string: `undefined` and the empty
string are falsy, every other string is truthy. -/
def truthy : Option String → Bool
  | none => false
  | some s => if s = "" then false else true

/-- JavaScript `a || b` on optional strings: the first operand when it is
truthy, otherwise the second operand. -/
def jsOr (a b : Option String) : Option String :=
  if truthy a then a else b

/-- The default endpoint hard-coded in the source. -/
def defaultEndpoint : String :=
  "https://api.pipecat.daily.co/v1/public/webagent/start"

/-- `import.meta.env.VITE_PIPECAT_ENDPOINT || defaultEndpoint`. -/
def resolvedEndpoint (env : Option String) : String :=
  match env with
  | some e => if e = "" then defaultEndpoint else e
  | none => defaultEndpoint

/-- The whitespace class of JavaScript's regex `\s` (ASCII whitespace plus
the Unicode space separators, LINE/PARAGRAPH SEPARATOR, NBSP and BOM). -/
def isJsSpace (c : Char) : Bool :=
  c = '\u0020' || ('\u0009' ≤ c && c ≤ '\u000D') ||
  c = '\u00A0' || c = '\u1680' || ('\u2000' ≤ c && c ≤ '\u200A') ||
  c = '\u2028' || c = '\u2029' || c = '\u202F' || c = '\u205F' ||
  c = '\u3000' || c = '\uFEFF'

/-- `apiKey.match(/^Bearer\s+/i)`: the string starts with `Bearer`
case-insensitively, followed by at least one whitespace character. -/
def matchesBearerRegex (k : String) : Bool :=
  if (k.toList.take 6).map Char.toLower = "bearer".toList then
    match k.toList.drop 6 with
    | [] => false
    | c :: _ => isJsSpace c
  else false

/-- `const authHeader = apiKey.match(/^Bearer\s+/i) ? apiKey : "Bearer " + apiKey`. -/
def authHeaderFor (k : String) : String :=
  if matchesBearerRegex k then k else "Bearer " ++ k

/-- `addToTranscript(speaker, text)`: appends one entry; the pseudo-random
id and the wall-clock timestamp are supplied by the caller's oracle. -/
def addToTranscript (msgId : String) (now : Nat) (speaker : Speaker)
    (text : String) (s : AgentState) : AgentState :=
  { s with transcript := s.transcript ++
      [{ id := msgId, speaker := speaker, text := text, timestamp := now }] }

/-- The `joined-meeting` listener. -/
def handleJoinedMeeting (s : AgentState) : AgentState :=
  { s with isConnected := true, isConnecting := false, connectLock := false }

/-- The `left-meeting` listener. -/
def handleLeftMeeting (s : AgentState) : AgentState :=
  { s with isConnected := false, connectLock := false }

/-- The `error` listener (the toast it raises is an effect, recorded by
the step relation below). -/
def handleErrorEvent (s : AgentState) : AgentState :=
  { s with isConnecting := false, connectLock := false }

/-- The `participant-joined` listener: a canned greeting when the bot
identity joins. -/
def handleParticipantJoined (msgId : String) (now : Nat) (userName : String)
    (s : AgentState) : AgentState :=
  if userName = "Chatbot" then
    addToTranscript msgId now Speaker.ai "I am Farm Vaidya AI" s
  else s

/-- The timer `useEffect`, run when `isConnected` changes: while connected
it only installs the interval (no state change); on disconnect it clears
the interval and resets the timer to 0. -/
def timerEffect (s : AgentState) : AgentState :=
  if s.isConnected then s else { s with timer := 0 }

/-- One firing of the interval callback `setTimer(prev => prev + 1)`.
The interval exists only while connected, so a tick in a disconnected
state does nothing. -/
def timerTick (s : AgentState) : AgentState :=
  if s.isConnected then { s with timer := s.timer + 1 } else s

/-- The re-entrancy guard of `startConversation`:
`connectLockRef.current || isConnecting || isConnected`. -/
def connectGuard (s : AgentState) : Bool :=
  s.connectLock || s.isConnecting || s.isConnected

/-- `connectLockRef.current = true; setIsConnecting(true)`. -/
def lockPhase (s : AgentState) : AgentState :=
  { s with connectLock := true, isConnecting := true }

/-- Teardown of a stale frame while the fetch is in flight:
`await callFrame.leave().catch(...); await callFrame.destroy().catch(...);
setCallFrame(null)`.  Rejections are logged (a `consoleError` effect) and
swallowed. -/
def cleanupOldFrame (w : World) (s : AgentState) : AgentState × List Effect :=
  match s.callFrame with
  | none => (s, [])
  | some f =>
      ({ s with callFrame := none },
       Effect.frameLeave f ::
         ((if w.leaveFails then [Effect.consoleError] else []) ++
          Effect.frameDestroy f ::
            (if w.destroyFails then [Effect.consoleError] else [])))

/-- `await frame.join(...)` with the room url, token and automatic track
subscription, followed by `setCallFrame(frame)`.  A successful join fires the
`joined-meeting` listener; a rejection propagates to the catch block and
`setCallFrame(frame)` is skipped. -/
def joinPhase (w : World) (url tok : String) (s : AgentState) :
    AgentState × List Effect × Option VErr :=
  if w.joinFails then
    (s, [Effect.frameJoin w.newFrameId url tok], some VErr.joinError)
  else
    ({ handleJoinedMeeting s with callFrame := some w.newFrameId },
     [Effect.frameJoin w.newFrameId url tok], none)

/-- Reading the parsed response:
`roomUrl = data.dailyRoom || data.room_url || data.roomUrl`,
`roomToken = data.dailyToken || data.token`, then the
`if (!roomUrl || !roomToken) throw ...` shape check, then the join. -/
def responsePhase (w : World) (data : ApiResponse) (s : AgentState) :
    AgentState × List Effect × Option VErr :=
  if truthy (jsOr (jsOr data.dailyRoom data.room_url) data.roomUrl) = false ||
     truthy (jsOr data.dailyToken data.token) = false then
    (s, [], some VErr.responseShapeError)
  else
    joinPhase w ((jsOr (jsOr data.dailyRoom data.room_url) data.roomUrl).getD "")
      ((jsOr data.dailyToken data.token).getD "") s

/-- `await fetchPromise`: a non-ok response was already turned into a
thrown `Error` inside the fetch continuation. -/
def fetchPhase (w : World) (s : AgentState) : AgentState × List Effect × Option VErr :=
  match w.fetchResult with
  | FetchResult.httpError st stx body => (s, [], some (VErr.requestError st stx body))
  | FetchResult.ok data => responsePhase w data s

/-- The body of `startConversation`'s try block after the lock was taken:
the credential check, the immediately issued POST, the stale-frame
teardown, the creation of the new frame with its listeners, and the
awaits on the fetch and the join.  Returns the resulting state, the
effect trace in program order, and the thrown error, if any. -/
def tryBody (w : World) (s : AgentState) : AgentState × List Effect × Option VErr :=
  if truthy w.apiKey = false then (s, [], some VErr.configurationError)
  else
    ((fetchPhase w (cleanupOldFrame w s).1).1,
     Effect.netRequest (resolvedEndpoint w.envEndpoint)
         (authHeaderFor (w.apiKey.getD "")) ::
       ((cleanupOldFrame w s).2 ++
         Effect.frameCreated w.newFrameId ::
           (fetchPhase w (cleanupOldFrame w s).1).2.1),
     (fetchPhase w (cleanupOldFrame w s).1).2.2)

/-- The catch block: `setIsConnecting(false); connectLockRef.current =
false;` and a destructive toast with the error's message. -/
def catchPhase (e : VErr) (s : AgentState) : AgentState × List Effect :=
  ({ s with isConnecting := false, connectLock := false },
   [Effect.toastError (errMessage e)])

/-- `startConversation()`: the guard's early return, the lock phase, the
try body, and the catch block.  Also reports the error that the catch
block swallowed, if any. -/
def startConversationE (w : World) (s : AgentState) :
    (AgentState × List Effect) × Option VErr :=
  if connectGuard s then ((s, []), none)
  else
    match (tryBody w (lockPhase s)).2.2 with
    | some e =>
        (((catchPhase e (tryBody w (lockPhase s)).1).1,
          (tryBody w (lockPhase s)).2.1 ++ (catchPhase e (tryBody w (lockPhase s)).1).2),
         some e)
    | none => (((tryBody w (lockPhase s)).1, (tryBody w (lockPhase s)).2.1), none)

/-- `startConversation()` as the outside observes it: resulting state and
effect trace. -/
def startConversation (w : World) (s : AgentState) : AgentState × List Effect :=
  (startConversationE w s).1

/-- The component states at the suspension (`await`) points of one
`startConversation` run beginning in `s`: the awaits on `leave` and
`destroy` of a stale frame, the await on the fetch, and the await on the
join (reached only when the response was ok and well-shaped).  A guarded
call and a missing-credential call suspend nowhere. -/
def interStates (w : World) (s : AgentState) : List AgentState :=
  if connectGuard s then []
  else
    if truthy w.apiKey = false then []
    else
      (match (lockPhase s).callFrame with
       | some _ => [lockPhase s, lockPhase s]
       | none => []) ++
      [(cleanupOldFrame w (lockPhase s)).1] ++
      (match w.fetchResult with
       | FetchResult.httpError _ _ _ => []
       | FetchResult.ok data =>
           if truthy (jsOr (jsOr data.dailyRoom data.room_url) data.roomUrl) = false ||
              truthy (jsOr data.dailyToken data.token) = false then []
           else [(cleanupOldFrame w (lockPhase s)).1])

/-- `endConversation()`: `if (callFrame) await callFrame.leave();` — note
the leave is not wrapped in try/catch, so a rejection aborts the handler
before `setIsConnected(false); setIsOpen(false)` run. -/
def endConversation (leaveFails : Bool) (s : AgentState) :
    AgentState × List Effect × Option VErr :=
  match s.callFrame with
  | some f =>
      if leaveFails then (s, [Effect.frameLeave f], some VErr.leaveError)
      else ({ s with isConnected := false, isOpen := false },
            [Effect.frameLeave f], none)
  | none => ({ s with isConnected := false, isOpen := false }, [], none)

/-- `toggleMute()`. -/
def toggleMute (s : AgentState) : AgentState × List Effect :=
  ({ s with isMuted := !s.isMuted },
   match s.callFrame with
   | some f => [Effect.setLocalAudio f (!(!s.isMuted))]
   | none => [])

/-- `handleSendMessage()`: local echo of the text input. -/
def handleSendMessage (msgId : String) (now : Nat) (s : AgentState) : AgentState :=
  if s.inputText.trim = "" then s
  else { addToTranscript msgId now Speaker.user s.inputText s with inputText := "" }

/-- The delayed mock bot reply scheduled by `handleSendMessage`. -/
def mockBotReply (msgId : String) (now : Nat) (s : AgentState) : AgentState :=
  addToTranscript msgId now Speaker.ai
    "I am a mock bot response. The API is bypassed for testing." s

/-- Whether a `startConversation` run from `s` under oracle `w` reaches
the point where `DailyIframe.createFrame` is called. -/
def startCreatesFrame (w : World) (s : AgentState) : Bool :=
  !(connectGuard s) && truthy w.apiKey

/-- Model state: the component state plus the ghost fact that some frame
with attached listeners exists (SDK events can only fire through such a
frame). -/
structure MState where
  ui : AgentState
  frameExists : Bool
deriving DecidableEq, Repr

/-- One atomic step of the component: a user action, a whole
`startConversation` run, an SDK event (possible only when a frame with
listeners exists), a timer tick, or a transcript append.  Steps that can
change `isConnected` are composed with the timer `useEffect`, which React
runs after the commit.  `okW` constrains the oracles (the environment
configuration) available to `startConversation`. -/
inductive StepM (okW : World → Prop) : MState → MState → Prop where
  | openWidget (m : MState) :
      StepM okW m { ui := { m.ui with isOpen := true }, frameExists := m.frameExists }
  | start (m : MState) (w : World) (hw : okW w) :
      StepM okW m { ui := timerEffect (startConversation w m.ui).1,
                    frameExists := m.frameExists || startCreatesFrame w m.ui }
  | joinedMeeting (m : MState) (hf : m.frameExists = true) :
      StepM okW m { ui := timerEffect (handleJoinedMeeting m.ui),
                    frameExists := m.frameExists }
  | leftMeeting (m : MState) (hf : m.frameExists = true) :
      StepM okW m { ui := timerEffect (handleLeftMeeting m.ui),
                    frameExists := m.frameExists }
  | errorEvent (m : MState) (hf : m.frameExists = true) :
      StepM okW m { ui := handleErrorEvent m.ui, frameExists := m.frameExists }
  | participantJoined (m : MState) (hf : m.frameExists = true)
      (msgId : String) (now : Nat) (userName : String) :
      StepM okW m { ui := handleParticipantJoined msgId now userName m.ui,
                    frameExists := m.frameExists }
  | endConv (m : MState) (leaveFails : Bool) :
      StepM okW m { ui := timerEffect (endConversation leaveFails m.ui).1,
                    frameExists := m.frameExists }
  | muteToggle (m : MState) :
      StepM okW m { ui := (toggleMute m.ui).1, frameExists := m.frameExists }
  | tick (m : MState) :
      StepM okW m { ui := timerTick m.ui, frameExists := m.frameExists }
  | sendMessage (m : MState) (msgId : String) (now : Nat) :
      StepM okW m { ui := handleSendMessage msgId now m.ui,
                    frameExists := m.frameExists }
  | botReply (m : MState) (msgId : String) (now : Nat) :
      StepM okW m { ui := mockBotReply msgId now m.ui, frameExists := m.frameExists }

/-- The states reachable from the freshly mounted component. -/
inductive ReachableM (okW : World → Prop) : MState → Prop where
  | base : ReachableM okW { ui := initState, frameExists := false }
  | step (m m2 : MState) : ReachableM okW m → StepM okW m m2 → ReachableM okW m2

/-- Recognizer for the network-request effect. -/
def isNetRequest : Effect → Bool
  | Effect.netRequest _ _ => true
  | _ => false

/-- Recognizer for the frame-creation effect. -/
def isFrameCreated : Effect → Bool
  | Effect.frameCreated _ => true
  | _ => false

/-- Recognizer for the join effect. -/
def isFrameJoin : Effect → Bool
  | Effect.frameJoin _ _ _ => true
  | _ => false

/-- Number of network requests in a trace. -/
def countNetRequests (l : List Effect) : Nat := (l.filter isNetRequest).length

/-- Number of frame creations in a trace. -/
def countFrameCreations (l : List Effect) : Nat := (l.filter isFrameCreated).length

/-- Appending a batch of transcript entries (each with its oracle id and
timestamp) in order. -/
def appendAll (items : List (String × Nat × Speaker × String)) (s : AgentState) :
    AgentState :=
  items.foldl (fun t it => addToTranscript it.1 it.2.1 it.2.2.1 it.2.2.2 t) s

/-! ## Basic lemmas about the embedding -/

/-- The guard is false exactly when the lock is free and the component is
neither connecting nor connected. -/
theorem connectGuard_false_iff (s : AgentState) :
    connectGuard s = false ↔
      s.connectLock = false ∧ s.isConnecting = false ∧ s.isConnected = false := by
  simp [connectGuard, and_assoc]

/-- State after the stale-frame teardown: only `callFrame` is cleared. -/
theorem cleanup_state (w : World) (s : AgentState) :
    (cleanupOldFrame w s).1 = { s with callFrame := none } := by
  rcases s with ⟨o, c, cg, mu, tr, cf, t, it, l⟩
  cases cf <;> rfl

/-- A guarded call returns at once: unchanged state, no effects, no error. -/
theorem startConversationE_guarded (w : World) (s : AgentState)
    (h : connectGuard s = true) : startConversationE w s = ((s, []), none) := by
  simp [startConversationE, h]

/-- Missing credential: the attempt throws the configuration error before
any effect other than the toast; the lock and `isConnecting` return to
their (false) values. -/
theorem startConversationE_noKey (w : World) (s : AgentState)
    (hg : connectGuard s = false) (hk : truthy w.apiKey = false) :
    startConversationE w s =
      ((s, [Effect.toastError (errMessage VErr.configurationError)]),
       some VErr.configurationError) := by
  obtain ⟨h1, h2, h3⟩ := (connectGuard_false_iff s).1 hg
  rcases s with ⟨o, c, cg, mu, tr, cf, t, it, l⟩
  simp only at h1 h2 h3
  subst h1 h2 h3
  simp [startConversationE, connectGuard, tryBody, hk, catchPhase, lockPhase]

/-- Non-ok HTTP response: request error after the POST, the teardown and
the frame creation; `callFrame` has been cleared. -/
theorem startConversationE_httpError (w : World) (s : AgentState)
    (st : Nat) (stx body : String)
    (hg : connectGuard s = false) (hk : truthy w.apiKey = true)
    (hf : w.fetchResult = FetchResult.httpError st stx body) :
    startConversationE w s =
      (({ s with callFrame := none },
        Effect.netRequest (resolvedEndpoint w.envEndpoint)
            (authHeaderFor (w.apiKey.getD "")) ::
          ((cleanupOldFrame w (lockPhase s)).2 ++
            [Effect.frameCreated w.newFrameId,
             Effect.toastError (errMessage (VErr.requestError st stx body))])),
       some (VErr.requestError st stx body)) := by
  obtain ⟨h1, h2, h3⟩ := (connectGuard_false_iff s).1 hg
  rcases s with ⟨o, c, cg, mu, tr, cf, t, it, l⟩
  simp only at h1 h2 h3
  subst h1 h2 h3
  cases cf <;>
    simp [startConversationE, connectGuard, tryBody, hk, hf, fetchPhase,
      cleanupOldFrame, catchPhase, lockPhase]

/-- Ok response with a missing room url or token: response-shape error;
no join was attempted and `callFrame` has been cleared. -/
theorem startConversationE_badShape (w : World) (s : AgentState) (data : ApiResponse)
    (hg : connectGuard s = false) (hk : truthy w.apiKey = true)
    (hf : w.fetchResult = FetchResult.ok data)
    (hm : truthy (jsOr (jsOr data.dailyRoom data.room_url) data.roomUrl) = false ∨
          truthy (jsOr data.dailyToken data.token) = false) :
    startConversationE w s =
      (({ s with callFrame := none },
        Effect.netRequest (resolvedEndpoint w.envEndpoint)
            (authHeaderFor (w.apiKey.getD "")) ::
          ((cleanupOldFrame w (lockPhase s)).2 ++
            [Effect.frameCreated w.newFrameId,
             Effect.toastError (errMessage VErr.responseShapeError)])),
       some VErr.responseShapeError) := by
  obtain ⟨h1, h2, h3⟩ := (connectGuard_false_iff s).1 hg
  rcases s with ⟨o, c, cg, mu, tr, cf, t, it, l⟩
  simp only at h1 h2 h3
  subst h1 h2 h3
  cases cf <;>
    rcases hm with hm | hm <;>
    simp [startConversationE, connectGuard, tryBody, hk, hf, fetchPhase,
      responsePhase, cleanupOldFrame, catchPhase, lockPhase, hm]

/-- Well-shaped response but the join rejects: join error; the new frame
was created and join was attempted, but `setCallFrame(frame)` never ran. -/
theorem startConversationE_joinFails (w : World) (s : AgentState) (data : ApiResponse)
    (hg : connectGuard s = false) (hk : truthy w.apiKey = true)
    (hf : w.fetchResult = FetchResult.ok data)
    (hu : truthy (jsOr (jsOr data.dailyRoom data.room_url) data.roomUrl) = true)
    (ht : truthy (jsOr data.dailyToken data.token) = true)
    (hj : w.joinFails = true) :
    startConversationE w s =
      (({ s with callFrame := none },
        Effect.netRequest (resolvedEndpoint w.envEndpoint)
            (authHeaderFor (w.apiKey.getD "")) ::
          ((cleanupOldFrame w (lockPhase s)).2 ++
            [Effect.frameCreated w.newFrameId,
             Effect.frameJoin w.newFrameId
               ((jsOr (jsOr data.dailyRoom data.room_url) data.roomUrl).getD "")
               ((jsOr data.dailyToken data.token).getD ""),
             Effect.toastError (errMessage VErr.joinError)])),
       some VErr.joinError) := by
  obtain ⟨h1, h2, h3⟩ := (connectGuard_false_iff s).1 hg
  rcases s with ⟨o, c, cg, mu, tr, cf, t, it, l⟩
  simp only at h1 h2 h3
  subst h1 h2 h3
  cases cf <;>
    simp [startConversationE, connectGuard, tryBody, hk, hf, fetchPhase,
      responsePhase, joinPhase, hj, cleanupOldFrame, catchPhase, lockPhase, hu, ht]

/-- Fully successful run: the joined-meeting listener fired and the new
frame was stored. -/
theorem startConversationE_success (w : World) (s : AgentState) (data : ApiResponse)
    (hg : connectGuard s = false) (hk : truthy w.apiKey = true)
    (hf : w.fetchResult = FetchResult.ok data)
    (hu : truthy (jsOr (jsOr data.dailyRoom data.room_url) data.roomUrl) = true)
    (ht : truthy (jsOr data.dailyToken data.token) = true)
    (hj : w.joinFails = false) :
    startConversationE w s =
      (({ s with isConnected := true, callFrame := some w.newFrameId },
        Effect.netRequest (resolvedEndpoint w.envEndpoint)
            (authHeaderFor (w.apiKey.getD "")) ::
          ((cleanupOldFrame w (lockPhase s)).2 ++
            [Effect.frameCreated w.newFrameId,
             Effect.frameJoin w.newFrameId
               ((jsOr (jsOr data.dailyRoom data.room_url) data.roomUrl).getD "")
               ((jsOr data.dailyToken data.token).getD "")])),
       none) := by
  obtain ⟨h1, h2, h3⟩ := (connectGuard_false_iff s).1 hg
  rcases s with ⟨o, c, cg, mu, tr, cf, t, it, l⟩
  simp only at h1 h2 h3
  subst h1 h2 h3
  cases cf <;>
    simp [startConversationE, connectGuard, tryBody, hk, hf, fetchPhase,
      responsePhase, joinPhase, hj, handleJoinedMeeting, cleanupOldFrame,
      catchPhase, lockPhase, hu, ht]


/-- Exhaustive description of the state a `startConversation` run can end
in, for an unguarded call. -/
theorem start_result_cases (w : World) (s : AgentState)
    (hg : connectGuard s = false) :
    (startConversation w s).1 = s ∨
    (startConversation w s).1 = { s with callFrame := none } ∨
    (startConversation w s).1 =
      { s with isConnected := true, callFrame := some w.newFrameId } := by
  by_cases hk : truthy w.apiKey = true
  · cases hf : w.fetchResult with
    | httpError st stx body =>
        right; left
        simp [startConversation, startConversationE_httpError w s st stx body hg hk hf]
    | ok data =>
        by_cases hu : truthy (jsOr (jsOr data.dailyRoom data.room_url) data.roomUrl) = true
        · by_cases ht : truthy (jsOr data.dailyToken data.token) = true
          · cases hj : w.joinFails with
            | true =>
                right; left
                simp [startConversation,
                  startConversationE_joinFails w s data hg hk hf hu ht hj]
            | false =>
                right; right
                simp [startConversation,
                  startConversationE_success w s data hg hk hf hu ht hj]
          · right; left
            simp [startConversation,
              startConversationE_badShape w s data hg hk hf
                (Or.inr (Bool.eq_false_iff.2 ht))]
        · right; left
          simp [startConversation,
            startConversationE_badShape w s data hg hk hf
              (Or.inl (Bool.eq_false_iff.2 hu))]
  · left
    simp [startConversation, startConversationE_noKey w s hg (Bool.eq_false_iff.2 hk)]

/-- No network request is hidden in the teardown effects. -/
theorem cleanup_no_net (w : World) (s : AgentState) :
    (cleanupOldFrame w s).2.filter isNetRequest = [] := by
  rcases s with ⟨o, c, cg, mu, tr, cf, t, it, l⟩
  cases cf <;> cases hl : w.leaveFails <;> cases hd : w.destroyFails <;>
    simp [cleanupOldFrame, isNetRequest, hl, hd]

/-- No frame creation is hidden in the teardown effects. -/
theorem cleanup_no_created (w : World) (s : AgentState) :
    (cleanupOldFrame w s).2.filter isFrameCreated = [] := by
  rcases s with ⟨o, c, cg, mu, tr, cf, t, it, l⟩
  cases cf <;> cases hl : w.leaveFails <;> cases hd : w.destroyFails <;>
    simp [cleanupOldFrame, isFrameCreated, hl, hd]

/-- An unguarded run with a configured credential issues exactly one
network request and creates exactly one transport frame, whatever the
outcome of the fetch and the join. -/
theorem start_trace_counts (w : World) (s : AgentState)
    (hg : connectGuard s = false) (hk : truthy w.apiKey = true) :
    countNetRequests (startConversation w s).2 = 1 ∧
    countFrameCreations (startConversation w s).2 = 1 := by
  cases hf : w.fetchResult with
  | httpError st stx body =>
      simp [startConversation, startConversationE_httpError w s st stx body hg hk hf,
        countNetRequests, countFrameCreations, List.filter_append,
        cleanup_no_net, cleanup_no_created, isNetRequest, isFrameCreated]
  | ok data =>
      by_cases hu : truthy (jsOr (jsOr data.dailyRoom data.room_url) data.roomUrl) = true
      · by_cases ht : truthy (jsOr data.dailyToken data.token) = true
        · cases hj : w.joinFails with
          | true =>
              simp [startConversation,
                startConversationE_joinFails w s data hg hk hf hu ht hj,
                countNetRequests, countFrameCreations, List.filter_append,
                cleanup_no_net, cleanup_no_created, isNetRequest, isFrameCreated]
          | false =>
              simp [startConversation,
                startConversationE_success w s data hg hk hf hu ht hj,
                countNetRequests, countFrameCreations, List.filter_append,
                cleanup_no_net, cleanup_no_created, isNetRequest, isFrameCreated]
        · simp [startConversation,
            startConversationE_badShape w s data hg hk hf
              (Or.inr (Bool.eq_false_iff.2 ht)),
            countNetRequests, countFrameCreations, List.filter_append,
            cleanup_no_net, cleanup_no_created, isNetRequest, isFrameCreated]
      · simp [startConversation,
          startConversationE_badShape w s data hg hk hf
            (Or.inl (Bool.eq_false_iff.2 hu)),
          countNetRequests, countFrameCreations, List.filter_append,
          cleanup_no_net, cleanup_no_created, isNetRequest, isFrameCreated]

/-- Every state at a suspension point of an unguarded run keeps the
re-entrancy guard raised. -/
theorem interStates_locked (w : World) (s : AgentState) (u : AgentState)
    (hu : u ∈ interStates w s) : connectGuard u = true := by
  have hlock : connectGuard (lockPhase s) = true := by
    simp [connectGuard, lockPhase]
  have hclean : connectGuard (cleanupOldFrame w (lockPhase s)).1 = true := by
    rw [cleanup_state]
    simp [connectGuard, lockPhase]
  unfold interStates at hu
  split at hu
  · simp at hu
  · split at hu
    · simp at hu
    · simp only [List.mem_append] at hu
      rcases hu with (hu | hu) | hu
      · split at hu
        · simp only [List.mem_cons, List.not_mem_nil, or_false] at hu
          rcases hu with hu | hu <;> (subst hu; exact hlock)
        · simp at hu
      · simp at hu; subst hu; exact hclean
      · split at hu
        · simp at hu
        · split at hu
          · simp at hu
          · simp at hu; subst hu; exact hclean


/-- The state invariant maintained by every operation: `isConnecting` and
`isConnected` are never both true, and while disconnected the timer
reads 0. -/
def goodState (s : AgentState) : Prop :=
  (s.isConnecting = true → s.isConnected = false) ∧
  (s.isConnected = false → s.timer = 0)

/-- Running the timer `useEffect` establishes the invariant from the
flags clause alone: on a disconnected state it resets the timer itself. -/
theorem goodState_timerEffect_mk (s : AgentState)
    (hflag : s.isConnecting = true → s.isConnected = false) :
    goodState (timerEffect s) := by
  unfold timerEffect
  by_cases hc : s.isConnected = true
  · simp only [hc, if_true]
    exact ⟨hflag, fun hcc => absurd hcc (by simp [hc])⟩
  · have hc2 : s.isConnected = false := Bool.eq_false_iff.2 hc
    simp only [hc2, Bool.false_eq_true, if_false]
    exact ⟨fun _ => rfl, fun _ => rfl⟩

/-- A whole `startConversation` run (followed by the timer effect)
preserves the invariant. -/
theorem goodState_start (w : World) (s : AgentState) (h : goodState s) :
    goodState (timerEffect (startConversation w s).1) := by
  by_cases hg : connectGuard s = true
  · rw [show startConversation w s = (s, []) from by
      simp [startConversation, startConversationE_guarded w s hg]]
    exact goodState_timerEffect_mk s h.1
  · have hg2 : connectGuard s = false := Bool.eq_false_iff.2 hg
    obtain ⟨h1, h2, h3⟩ := (connectGuard_false_iff s).1 hg2
    rcases start_result_cases w s hg2 with hcase | hcase | hcase <;> rw [hcase]
    · exact goodState_timerEffect_mk s h.1
    · exact goodState_timerEffect_mk _ h.1
    · exact goodState_timerEffect_mk _ (fun hcg => absurd (h2.symm.trans hcg) (by simp))

/-- Invariant preservation by each atomic step. -/
theorem goodState_step (okW : World → Prop) (m m2 : MState)
    (hs : StepM okW m m2) (h : goodState m.ui) : goodState m2.ui := by
  cases hs with
  | openWidget => exact ⟨h.1, h.2⟩
  | start w hw => exact goodState_start w m.ui h
  | joinedMeeting hf =>
      exact goodState_timerEffect_mk _
        (fun hcg => absurd hcg (by simp [handleJoinedMeeting]))
  | leftMeeting hf => exact goodState_timerEffect_mk _ (fun _ => rfl)
  | errorEvent hf =>
      exact ⟨fun hcg => absurd hcg (by simp [handleErrorEvent]), h.2⟩
  | participantJoined hf msgId now userName =>
      unfold handleParticipantJoined
      split
      · exact ⟨h.1, h.2⟩
      · exact h
  | endConv lf =>
      apply goodState_timerEffect_mk
      unfold endConversation
      cases hcf : m.ui.callFrame with
      | none => exact fun _ => rfl
      | some f =>
          cases lf with
          | true => exact h.1
          | false => exact fun _ => rfl
  | muteToggle => exact ⟨h.1, h.2⟩
  | tick =>
      unfold timerTick
      by_cases hc : m.ui.isConnected = true
      · simp only [hc, if_true]
        exact ⟨fun hcg => absurd (h.1 hcg) (by simp [hc]),
               fun hcc => absurd hcc (by simp [hc])⟩
      · have hc2 : m.ui.isConnected = false := Bool.eq_false_iff.2 hc
        simp only [hc2, Bool.false_eq_true, if_false]
        exact h
  | sendMessage msgId now =>
      unfold handleSendMessage
      split
      · exact h
      · exact ⟨h.1, h.2⟩
  | botReply msgId now => exact ⟨h.1, h.2⟩

/-- Every reachable state satisfies the invariant. -/
theorem reachable_good (okW : World → Prop) (m : MState)
    (h : ReachableM okW m) : goodState m.ui := by
  induction h with
  | base => exact ⟨fun hcg => by simp [initState] at hcg, fun _ => rfl⟩
  | step m m2 hr hs ih => exact goodState_step okW m m2 hs ih


/-- The timer effect never changes the guard flags. -/
theorem connectGuard_timerEffect (s : AgentState) :
    connectGuard (timerEffect s) = connectGuard s := by
  unfold timerEffect
  split <;> rfl

/-- With no credential configured, no reachable state raises the
re-entrancy guard and no frame is ever created: every attempt dies at the
credential check, synchronously, and no SDK listener can ever fire. -/
theorem reachable_noKey (m : MState)
    (h : ReachableM (fun w => w.apiKey = none) m) :
    connectGuard m.ui = false ∧ m.frameExists = false := by
  induction h with
  | base => exact ⟨rfl, rfl⟩
  | step m m2 hr hs ih =>
      obtain ⟨ihg, ihf⟩ := ih
      cases hs with
      | openWidget => exact ⟨ihg, ihf⟩
      | start w hw =>
          refine ⟨?_, ?_⟩
          · rw [connectGuard_timerEffect]
            have hrun := startConversationE_noKey w m.ui ihg (by simp [truthy, hw])
            have : (startConversation w m.ui).1 = m.ui := by
              simp [startConversation, hrun]
            rw [this]
            exact ihg
          · simp [ihf, startCreatesFrame, hw, truthy]
      | joinedMeeting hf => exact absurd hf (by simp [ihf])
      | leftMeeting hf => exact absurd hf (by simp [ihf])
      | errorEvent hf => exact absurd hf (by simp [ihf])
      | participantJoined hf msgId now userName => exact absurd hf (by simp [ihf])
      | endConv lf =>
          refine ⟨?_, ihf⟩
          rw [connectGuard_timerEffect]
          obtain ⟨hl, hcg, hcc⟩ := (connectGuard_false_iff m.ui).1 ihg
          unfold endConversation
          cases hcf : m.ui.callFrame with
          | none => simp [connectGuard, hl, hcg]
          | some f =>
              cases lf with
              | true => exact ihg
              | false => simp [connectGuard, hl, hcg]
      | muteToggle => exact ⟨by simpa [connectGuard, toggleMute] using ihg, ihf⟩
      | tick =>
          refine ⟨?_, ihf⟩
          unfold timerTick
          split
          · simpa [connectGuard] using ihg
          · exact ihg
      | sendMessage msgId now =>
          refine ⟨?_, ihf⟩
          unfold handleSendMessage
          split
          · exact ihg
          · simpa [connectGuard, addToTranscript] using ihg
      | botReply msgId now =>
          exact ⟨by simpa [connectGuard, mockBotReply, addToTranscript] using ihg, ihf⟩


/-- No join call is hidden in the teardown effects. -/
theorem cleanup_no_join (w : World) (s : AgentState) :
    (cleanupOldFrame w s).2.filter isFrameJoin = [] := by
  rcases s with ⟨o, c, cg, mu, tr, cf, t, it, l⟩
  cases cf <;> cases hl : w.leaveFails <;> cases hd : w.destroyFails <;>
    simp [cleanupOldFrame, isFrameJoin, hl, hd]

/-- The timer effect never changes the transcript. -/
theorem timerEffect_transcript (s : AgentState) :
    (timerEffect s).transcript = s.transcript := by
  unfold timerEffect
  split <;> rfl

/-- A `startConversation` run never touches the transcript. -/
theorem start_transcript (w : World) (s : AgentState) :
    (startConversation w s).1.transcript = s.transcript := by
  by_cases hg : connectGuard s = true
  · simp [startConversation, startConversationE_guarded w s hg]
  · rcases start_result_cases w s (Bool.eq_false_iff.2 hg) with hc | hc | hc <;> rw [hc]

/-- Each atomic step only ever extends the transcript at its end. -/
theorem step_transcript (okW : World → Prop) (m m2 : MState)
    (hs : StepM okW m m2) : m.ui.transcript <+: m2.ui.transcript := by
  cases hs with
  | openWidget => exact List.prefix_rfl
  | start w hw =>
      have h2 : (timerEffect (startConversation w m.ui).1).transcript =
          m.ui.transcript := by
        rw [timerEffect_transcript, start_transcript]
      exact h2 ▸ List.prefix_rfl
  | joinedMeeting hf => exact List.prefix_rfl
  | leftMeeting hf => exact List.prefix_rfl
  | errorEvent hf => exact List.prefix_rfl
  | participantJoined hf msgId now userName =>
      unfold handleParticipantJoined addToTranscript
      split
      · exact List.prefix_append _ _
      · exact List.prefix_rfl
  | endConv lf =>
      unfold endConversation
      cases hcf : m.ui.callFrame with
      | none => simp [timerEffect_transcript]
      | some f =>
          cases lf with
          | true => simp [timerEffect_transcript]
          | false => simp [timerEffect_transcript]
  | muteToggle => exact List.prefix_rfl
  | tick =>
      unfold timerTick
      split <;> exact List.prefix_rfl
  | sendMessage msgId now =>
      unfold handleSendMessage addToTranscript
      split
      · exact List.prefix_rfl
      · exact List.prefix_append _ _
  | botReply msgId now => exact List.prefix_append _ _


/-- The transcript after a batch of appends: the old entries followed by
the new ones, in insertion order, each keeping its fields. -/
theorem appendAll_transcript (items : List (String × Nat × Speaker × String))
    (s : AgentState) :
    (appendAll items s).transcript =
      s.transcript ++ items.map (fun it =>
        { id := it.1, speaker := it.2.2.1, text := it.2.2.2, timestamp := it.2.1 }) := by
  induction items generalizing s with
  | nil => simp [appendAll]
  | cons a l ih =>
      have h1 : appendAll (a :: l) s =
          appendAll l (addToTranscript a.1 a.2.1 a.2.2.1 a.2.2.2 s) := rfl
      rw [h1, ih]
      simp [addToTranscript]


/-! ## The claims -/

/-- A concrete well-shaped API response, used by witnesses. -/
def demoResponse : ApiResponse :=
  { dailyRoom := some "https://x.daily.co/r", room_url := none, roomUrl := none,
    dailyToken := some "tok", token := none }

/-- A concrete oracle for a fully successful connection attempt, used by
witnesses. -/
def demoWorld : World :=
  { envEndpoint := none, apiKey := some "k",
    fetchResult := FetchResult.ok demoResponse,
    leaveFails := false, destroyFails := false, newFrameId := 7,
    joinFails := false }

/-- Claim C1: whenever the lock is held or the component is connecting or
connected, `startConversation` returns at once, unchanged and effect-free;
moreover an unguarded run with a configured credential keeps the guard
raised at every one of its suspension points — so an invocation that
starts concurrently with it contributes nothing — while the run itself
issues exactly one network request and creates exactly one transport
frame. -/
theorem startConversation_lock_property
    (t s : AgentState) (w w2 : World) (k : String)
    (hguard : connectGuard t = true)
    (hs : connectGuard s = false)
    (hk : w.apiKey = some k) (hk2 : k ≠ "") :
    startConversation w2 t = (t, []) ∧
    (∀ u ∈ interStates w s, startConversation w2 u = (u, [])) ∧
    countNetRequests (startConversation w s).2 = 1 ∧
    countFrameCreations (startConversation w s).2 = 1 := by
  have htru : truthy w.apiKey = true := by simp [truthy, hk, hk2]
  refine ⟨?_, ?_, (start_trace_counts w s hs htru).1, (start_trace_counts w s hs htru).2⟩
  · simp [startConversation, startConversationE_guarded w2 t hguard]
  · intro u hu
    simp [startConversation,
      startConversationE_guarded w2 u (interStates_locked w s u hu)]

/-- Witness for C1 at concrete inputs: a locked state is left untouched,
and the unguarded run from the initial state makes one request and one
frame. -/
theorem startConversation_lock_property_witness :
    startConversation demoWorld { initState with connectLock := true } =
      ({ initState with connectLock := true }, []) ∧
    countNetRequests (startConversation demoWorld initState).2 = 1 ∧
    countFrameCreations (startConversation demoWorld initState).2 = 1 := by
  have h := startConversation_lock_property
    { initState with connectLock := true } initState demoWorld demoWorld "k"
    rfl rfl rfl (by decide)
  exact ⟨h.1, h.2.2.1, h.2.2.2⟩


/-- Claim C2: with no access credential configured, every invocation of
`startConversation` from every reachable component state throws the
configuration error immediately, issues no network request, and ends with
`isConnecting` false and the lock released. -/
theorem startConversation_no_credential
    (m : MState) (w : World)
    (hreach : ReachableM (fun w2 => w2.apiKey = none) m)
    (hw : w.apiKey = none) :
    (startConversationE w m.ui).2 = some VErr.configurationError ∧
    countNetRequests (startConversation w m.ui).2 = 0 ∧
    (startConversation w m.ui).1.isConnecting = false ∧
    (startConversation w m.ui).1.connectLock = false := by
  have hg := (reachable_noKey m hreach).1
  have htru : truthy w.apiKey = false := by simp [truthy, hw]
  have hrun := startConversationE_noKey w m.ui hg htru
  obtain ⟨hl, hcg, hcc⟩ := (connectGuard_false_iff m.ui).1 hg
  refine ⟨by simp [hrun], ?_, ?_, ?_⟩
  · simp [startConversation, hrun, countNetRequests, isNetRequest]
  · simp [startConversation, hrun, hcg]
  · simp [startConversation, hrun, hl]

/-- Witness for C2 at the freshly mounted state with an unset
`VITE_PIPECAT_TOKEN`. -/
theorem startConversation_no_credential_witness :
    (startConversationE { demoWorld with apiKey := none } initState).2 =
      some VErr.configurationError ∧
    countNetRequests (startConversation { demoWorld with apiKey := none } initState).2 = 0 := by
  have h := startConversation_no_credential
    { ui := initState, frameExists := false } { demoWorld with apiKey := none }
    ReachableM.base rfl
  exact ⟨h.1, h.2.1⟩

/-- Claim C3: a parsed response carrying none of the room-url aliases, or
neither token alias, makes the run throw the response-shape error; no
join effect occurs and the component stays disconnected. -/
theorem startConversation_bad_shape
    (s : AgentState) (w : World) (data : ApiResponse) (k : String)
    (hg : connectGuard s = false)
    (hk : w.apiKey = some k) (hk2 : k ≠ "")
    (hf : w.fetchResult = FetchResult.ok data)
    (hmiss : (data.dailyRoom = none ∧ data.room_url = none ∧ data.roomUrl = none) ∨
             (data.dailyToken = none ∧ data.token = none)) :
    (startConversationE w s).2 = some VErr.responseShapeError ∧
    (startConversation w s).2.filter isFrameJoin = [] ∧
    (startConversation w s).1.isConnected = false := by
  have htru : truthy w.apiKey = true := by simp [truthy, hk, hk2]
  have hm : truthy (jsOr (jsOr data.dailyRoom data.room_url) data.roomUrl) = false ∨
      truthy (jsOr data.dailyToken data.token) = false := by
    rcases hmiss with ⟨ha, hb, hc⟩ | ⟨ha, hb⟩
    · exact Or.inl (by simp [jsOr, truthy, ha, hb, hc])
    · exact Or.inr (by simp [jsOr, truthy, ha, hb])
  have hrun := startConversationE_badShape w s data hg htru hf hm
  obtain ⟨hl, hcg, hcc⟩ := (connectGuard_false_iff s).1 hg
  refine ⟨by simp [hrun], ?_, by simp [startConversation, hrun, hcc]⟩
  simp [startConversation, hrun, List.filter_append, cleanup_no_join,
    isFrameJoin]

/-- A response carrying a token but no room-url alias, used by the C3
witness. -/
def roomlessResponse : ApiResponse :=
  { dailyRoom := none, room_url := none, roomUrl := none,
    dailyToken := some "tok", token := none }

/-- Witness for C3: a response whose only populated field is a token
alias. -/
theorem startConversation_bad_shape_witness :
    (startConversationE
        { demoWorld with fetchResult := FetchResult.ok roomlessResponse }
        initState).2 = some VErr.responseShapeError := by
  have h := startConversation_bad_shape initState
    { demoWorld with fetchResult := FetchResult.ok roomlessResponse }
    roomlessResponse "k" rfl rfl (by decide) rfl (Or.inl ⟨rfl, rfl, rfl⟩)
  exact h.1


/-- Counterexample to C4 as stated: with a stored handle whose `leave()`
rejects, `endConversation` aborts before `setIsConnected(false)` and
`setIsOpen(false)` run, so the widget stays open and connected. -/
theorem endConversation_leave_rejection_cex :
    (endConversation true
        { initState with
          callFrame := some 0, isOpen := true, isConnected := true }).1.isOpen = true ∧
    (endConversation true
        { initState with
          callFrame := some 0, isOpen := true, isConnected := true }).1.isConnected = true ∧
    (endConversation true
        { initState with
          callFrame := some 0, isOpen := true, isConnected := true }).2.2 = some VErr.leaveError := by
  exact ⟨rfl, rfl, rfl⟩

/-- Claim C4 (amended): when no handle exists or the leave call succeeds,
`endConversation` marks the component disconnected and closes the widget;
when a handle exists and its `leave()` rejects, the handler aborts with
the state unchanged. -/
theorem endConversation_closes
    (s : AgentState) (lf : Bool) :
    ((lf = false ∨ s.callFrame = none) →
       (endConversation lf s).1.isConnected = false ∧
       (endConversation lf s).1.isOpen = false) ∧
    (∀ f : Nat, lf = true → s.callFrame = some f →
       (endConversation lf s).1 = s) := by
  constructor
  · intro h
    unfold endConversation
    rcases h with h | h
    · subst h
      cases hcf : s.callFrame <;> simp
    · rw [h]
      exact ⟨rfl, rfl⟩
  · intro f hlf hcf
    subst hlf
    unfold endConversation
    rw [hcf]
    rfl

/-- Witness for C4 (amended): ending from a connected, open state with a
stored handle whose leave succeeds closes and disconnects the widget. -/
theorem endConversation_closes_witness :
    (endConversation false
        { initState with
          callFrame := some 0, isOpen := true, isConnected := true }).1.isConnected = false ∧
    (endConversation false
        { initState with
          callFrame := some 0, isOpen := true, isConnected := true }).1.isOpen = false := by
  exact (endConversation_closes
    { initState with callFrame := some 0, isOpen := true, isConnected := true }
    false).1 (Or.inl rfl)

/-- Claim C5: from any reachable disconnected state, the joined-meeting
event (followed by the timer effect) makes the component connected, not
connecting, with the elapsed timer starting at 0; every interval tick in
a connected state increments the timer by exactly 1; the left-meeting
event (followed by the timer effect) disconnects and resets the timer to
0; and ticks do nothing while disconnected. -/
theorem joined_and_timer
    (m : MState) (hreach : ReachableM (fun _ => True) m)
    (hnc : m.ui.isConnected = false) :
    ((timerEffect (handleJoinedMeeting m.ui)).isConnected = true ∧
     (timerEffect (handleJoinedMeeting m.ui)).isConnecting = false ∧
     (timerEffect (handleJoinedMeeting m.ui)).timer = 0) ∧
    (∀ s : AgentState, s.isConnected = true →
       timerTick s = { s with timer := s.timer + 1 }) ∧
    (∀ s : AgentState, (timerEffect (handleLeftMeeting s)).isConnected = false ∧
       (timerEffect (handleLeftMeeting s)).timer = 0) ∧
    (∀ s : AgentState, s.isConnected = false → timerTick s = s) := by
  have htimer : m.ui.timer = 0 := (reachable_good _ m hreach).2 hnc
  refine ⟨?_, ?_, ?_, ?_⟩
  · simp [timerEffect, handleJoinedMeeting, htimer]
  · intro s hs
    simp [timerTick, hs]
  · intro s
    simp [timerEffect, handleLeftMeeting]
  · intro s hs
    simp [timerTick, hs]

/-- Witness for C5 at the freshly mounted state. -/
theorem joined_and_timer_witness :
    (timerEffect (handleJoinedMeeting initState)).isConnected = true ∧
    (timerEffect (handleJoinedMeeting initState)).isConnecting = false ∧
    (timerEffect (handleJoinedMeeting initState)).timer = 0 := by
  exact (joined_and_timer { ui := initState, frameExists := false }
    ReachableM.base rfl).1

/-- Claim C6: in every reachable state of the component, `isConnecting`
and `isConnected` are never both true. -/
theorem connecting_connected_exclusive (m : MState)
    (hreach : ReachableM (fun _ => True) m) :
    ¬(m.ui.isConnecting = true ∧ m.ui.isConnected = true) := by
  intro hc
  have h := (reachable_good _ m hreach).1 hc.1
  rw [hc.2] at h
  cases h

/-- Witness for C6 at the freshly mounted state. -/
theorem connecting_connected_exclusive_witness :
    ¬(initState.isConnecting = true ∧ initState.isConnected = true) := by
  exact connecting_connected_exclusive { ui := initState, frameExists := false }
    ReachableM.base


/-- The teardown effects of a run whose starting state stores a stale
handle. -/
theorem cleanup_effects_of_frame (w : World) (s : AgentState) (f : Nat)
    (hf : s.callFrame = some f) :
    (cleanupOldFrame w (lockPhase s)).2 =
      Effect.frameLeave f ::
        ((if w.leaveFails then [Effect.consoleError] else []) ++
         Effect.frameDestroy f ::
           (if w.destroyFails then [Effect.consoleError] else [])) := by
  have hlp : (lockPhase s).callFrame = some f := hf
  simp [cleanupOldFrame, hlp]

/-- Claim C7: an unguarded start with a configured credential and a stale
stored handle first leaves and destroys that handle and only then creates
the new frame (visible in the trace order), and teardown rejections are
swallowed: varying them changes neither the resulting state nor the
thrown error, and the new frame is still created exactly once. -/
theorem stale_handle_teardown
    (s : AgentState) (w : World) (f : Nat) (k : String)
    (hg : connectGuard s = false) (hf : s.callFrame = some f)
    (hk : w.apiKey = some k) (hk2 : k ≠ "") :
    (∃ rest, (startConversation w s).2 =
        Effect.netRequest (resolvedEndpoint w.envEndpoint) (authHeaderFor k) ::
        Effect.frameLeave f ::
          ((if w.leaveFails then [Effect.consoleError] else []) ++
           Effect.frameDestroy f ::
             ((if w.destroyFails then [Effect.consoleError] else []) ++
              Effect.frameCreated w.newFrameId :: rest))) ∧
    (∀ b1 b2 : Bool,
       (startConversation { w with leaveFails := b1, destroyFails := b2 } s).1 =
         (startConversation w s).1 ∧
       (startConversationE { w with leaveFails := b1, destroyFails := b2 } s).2 =
         (startConversationE w s).2 ∧
       countFrameCreations
         (startConversation { w with leaveFails := b1, destroyFails := b2 } s).2 = 1) := by
  have htru : truthy w.apiKey = true := by simp [truthy, hk, hk2]
  have hkk : w.apiKey.getD "" = k := by simp [hk]
  constructor
  · cases hfr : w.fetchResult with
    | httpError st stx body =>
        refine ⟨[Effect.toastError (errMessage (VErr.requestError st stx body))], ?_⟩
        simp [startConversation, startConversationE_httpError w s st stx body hg htru hfr,
          cleanup_effects_of_frame w s f hf, hkk]
    | ok data =>
        by_cases hu : truthy (jsOr (jsOr data.dailyRoom data.room_url) data.roomUrl) = true
        · by_cases ht : truthy (jsOr data.dailyToken data.token) = true
          · cases hj : w.joinFails with
            | true =>
                refine ⟨[Effect.frameJoin w.newFrameId
                    ((jsOr (jsOr data.dailyRoom data.room_url) data.roomUrl).getD "")
                    ((jsOr data.dailyToken data.token).getD ""),
                  Effect.toastError (errMessage VErr.joinError)], ?_⟩
                simp [startConversation,
                  startConversationE_joinFails w s data hg htru hfr hu ht hj,
                  cleanup_effects_of_frame w s f hf, hkk]
            | false =>
                refine ⟨[Effect.frameJoin w.newFrameId
                    ((jsOr (jsOr data.dailyRoom data.room_url) data.roomUrl).getD "")
                    ((jsOr data.dailyToken data.token).getD "")], ?_⟩
                simp [startConversation,
                  startConversationE_success w s data hg htru hfr hu ht hj,
                  cleanup_effects_of_frame w s f hf, hkk]
          · refine ⟨[Effect.toastError (errMessage VErr.responseShapeError)], ?_⟩
            simp [startConversation,
              startConversationE_badShape w s data hg htru hfr
                (Or.inr (Bool.eq_false_iff.2 ht)),
              cleanup_effects_of_frame w s f hf, hkk]
        · refine ⟨[Effect.toastError (errMessage VErr.responseShapeError)], ?_⟩
          simp [startConversation,
            startConversationE_badShape w s data hg htru hfr
              (Or.inl (Bool.eq_false_iff.2 hu)),
            cleanup_effects_of_frame w s f hf, hkk]
  · intro b1 b2
    refine ⟨?_, ?_, (start_trace_counts { w with leaveFails := b1, destroyFails := b2 }
        s hg htru).2⟩ <;>
    · cases hfr : w.fetchResult with
      | httpError st stx body =>
          have e1 := startConversationE_httpError w s st stx body hg htru hfr
          have e2 := startConversationE_httpError
            { w with leaveFails := b1, destroyFails := b2 } s st stx body hg htru hfr
          rw [hfr] at e2
          simp [startConversation, e1, e2]
      | ok data =>
          by_cases hu : truthy (jsOr (jsOr data.dailyRoom data.room_url) data.roomUrl) = true
          · by_cases ht : truthy (jsOr data.dailyToken data.token) = true
            · cases hj : w.joinFails with
              | true =>
                  have e1 := startConversationE_joinFails w s data hg htru hfr hu ht hj
                  have e2 := startConversationE_joinFails
                    { w with leaveFails := b1, destroyFails := b2 }
                    s data hg htru hfr hu ht hj
                  rw [hfr, hj] at e2
                  simp [startConversation, e1, e2]
              | false =>
                  have e1 := startConversationE_success w s data hg htru hfr hu ht hj
                  have e2 := startConversationE_success
                    { w with leaveFails := b1, destroyFails := b2 }
                    s data hg htru hfr hu ht hj
                  rw [hfr, hj] at e2
                  simp [startConversation, e1, e2]
            · have e1 := startConversationE_badShape w s data hg htru hfr
                (Or.inr (Bool.eq_false_iff.2 ht))
              have e2 := startConversationE_badShape
                { w with leaveFails := b1, destroyFails := b2 }
                s data hg htru hfr (Or.inr (Bool.eq_false_iff.2 ht))
              rw [hfr] at e2
              simp [startConversation, e1, e2]
          · have e1 := startConversationE_badShape w s data hg htru hfr
              (Or.inl (Bool.eq_false_iff.2 hu))
            have e2 := startConversationE_badShape
              { w with leaveFails := b1, destroyFails := b2 }
              s data hg htru hfr (Or.inl (Bool.eq_false_iff.2 hu))
            rw [hfr] at e2
            simp [startConversation, e1, e2]

/-- Witness for C7: the concrete successful run from a state holding
stale handle 5 tears it down before creating frame 7, with both teardown
flag choices leading to the same state and error outcome. -/
theorem stale_handle_teardown_witness :
    (∃ rest, (startConversation demoWorld { initState with callFrame := some 5 }).2 =
        Effect.netRequest (resolvedEndpoint demoWorld.envEndpoint) (authHeaderFor "k") ::
        Effect.frameLeave 5 ::
          ((if demoWorld.leaveFails then [Effect.consoleError] else []) ++
           Effect.frameDestroy 5 ::
             ((if demoWorld.destroyFails then [Effect.consoleError] else []) ++
              Effect.frameCreated demoWorld.newFrameId :: rest))) ∧
    (startConversation { demoWorld with leaveFails := true, destroyFails := true }
        { initState with callFrame := some 5 }).1 =
      (startConversation demoWorld { initState with callFrame := some 5 }).1 := by
  have h := stale_handle_teardown { initState with callFrame := some 5 }
    demoWorld 5 "k" rfl rfl rfl (by decide)
  exact ⟨h.1, (h.2 true true).1⟩


/-- Counterexample to C8 as stated: the credential "bearer x" matches the
case-insensitive Bearer regex, is sent unchanged, and the resulting
header does not begin with the literal prefix "Bearer ". -/
theorem authHeader_literal_bearer_cex :
    authHeaderFor "bearer x" = "bearer x" ∧
    ("Bearer ".toList.isPrefixOf (authHeaderFor "bearer x").toList) = false := by
  exact ⟨by decide, by decide⟩

/-- Claim C8 (amended): the Authorization header always matches the
case-insensitive Bearer-plus-whitespace regex: a credential that already
matches is sent unchanged, any other credential gets the literal
"Bearer " prefix prepended. -/
theorem authHeader_bearer_normalization (k : String) :
    (matchesBearerRegex k = true → authHeaderFor k = k) ∧
    (matchesBearerRegex k = false → authHeaderFor k = "Bearer " ++ k) ∧
    matchesBearerRegex (authHeaderFor k) = true := by
  refine ⟨fun hm => by simp [authHeaderFor, hm], fun hm => by simp [authHeaderFor, hm], ?_⟩
  by_cases hm : matchesBearerRegex k = true
  · simp [authHeaderFor, hm]
  · have hm2 : matchesBearerRegex k = false := Bool.eq_false_iff.2 hm
    have hh : authHeaderFor k = "Bearer " ++ k := by simp [authHeaderFor, hm2]
    rw [hh]
    have hdata : ("Bearer " ++ k).toList =
        ['B', 'e', 'a', 'r', 'e', 'r', ' '] ++ k.toList := by
      simp [String.toList, String.data_append]
    unfold matchesBearerRegex
    rw [if_pos]
    · rw [hdata, List.drop_append_eq_append_drop]
      simp [isJsSpace]
    · rw [hdata, List.take_append_eq_append_take]
      simp

/-- Witness for C8 (amended): a bare credential gets the prefix, and the
result matches the regex. -/
theorem authHeader_bearer_normalization_witness :
    authHeaderFor "abc" = "Bearer abc" ∧
    matchesBearerRegex (authHeaderFor "abc") = true := by
  exact ⟨(authHeader_bearer_normalization "abc").2.1 (by decide),
         (authHeader_bearer_normalization "abc").2.2⟩

/-- Claim C9: appending a batch of entries yields a transcript of the
batch's length, in insertion order, each entry keeping the speaker tag
and text it was appended with; and no atomic operation of the component
removes or mutates an existing entry — every step leaves the previous
transcript as a prefix. -/
theorem transcript_append_only
    (items : List (String × Nat × Speaker × String)) :
    (appendAll items initState).transcript.length = items.length ∧
    (appendAll items initState).transcript.map (fun e => (e.speaker, e.text)) =
      items.map (fun it => (it.2.2.1, it.2.2.2)) ∧
    (∀ (okW : World → Prop) (m m2 : MState), StepM okW m m2 →
       m.ui.transcript <+: m2.ui.transcript) := by
  refine ⟨?_, ?_, fun okW m m2 hs => step_transcript okW m m2 hs⟩
  · simp [appendAll_transcript, initState]
  · simp [appendAll_transcript, initState, List.map_map]

/-- Witness for C9: a two-entry batch in order, and one concrete step
extending the transcript. -/
theorem transcript_append_only_witness :
    (appendAll [("a1", 0, Speaker.user, "hello"), ("a2", 1, Speaker.ai, "hi")]
        initState).transcript.length = 2 ∧
    initState.transcript <+: (timerTick initState).transcript := by
  refine ⟨(transcript_append_only
    [("a1", 0, Speaker.user, "hello"), ("a2", 1, Speaker.ai, "hi")]).1, ?_⟩
  exact (transcript_append_only []).2.2 (fun _ => True)
    { ui := initState, frameExists := false }
    { ui := timerTick initState, frameExists := false }
    (StepM.tick { ui := initState, frameExists := false })


/-- Counterexample to C10 as stated: when a fetch fails after a stale
handle existed, the stored handle has already been cleared to null — the
stored value did not survive the failing attempt. -/
theorem callFrame_not_preserved_cex :
    ({ initState with callFrame := some 5 } : AgentState).callFrame = some 5 ∧
    (startConversation
        { demoWorld with
          fetchResult := FetchResult.httpError 500 "Internal Server Error" "boom" }
        { initState with callFrame := some 5 }).1.callFrame = none := by
  exact ⟨rfl, by decide⟩

/-- Claim C10 (amended): the stored handle is set to the new frame exactly
when the join succeeded; a configuration error leaves it unchanged, and
every later error (request, response shape, join) leaves it cleared to
null. -/
theorem callFrame_update_discipline
    (s : AgentState) (w : World) (hg : connectGuard s = false) :
    ((startConversationE w s).2 = none →
       (startConversation w s).1.callFrame = some w.newFrameId) ∧
    ((startConversationE w s).2 = some VErr.configurationError →
       (startConversation w s).1.callFrame = s.callFrame) ∧
    (∀ e : VErr, (startConversationE w s).2 = some e →
       e ≠ VErr.configurationError →
       (startConversation w s).1.callFrame = none) := by
  by_cases hk : truthy w.apiKey = true
  · cases hfr : w.fetchResult with
    | httpError st stx body =>
        have e1 := startConversationE_httpError w s st stx body hg hk hfr
        refine ⟨fun hn => ?_, fun hc => ?_, fun e he hne => ?_⟩
        · rw [e1] at hn; cases hn
        · rw [e1] at hc; simp at hc
        · simp [startConversation, e1]
    | ok data =>
        by_cases hu : truthy (jsOr (jsOr data.dailyRoom data.room_url) data.roomUrl) = true
        · by_cases ht : truthy (jsOr data.dailyToken data.token) = true
          · cases hj : w.joinFails with
            | true =>
                have e1 := startConversationE_joinFails w s data hg hk hfr hu ht hj
                refine ⟨fun hn => ?_, fun hc => ?_, fun e he hne => ?_⟩
                · rw [e1] at hn; cases hn
                · rw [e1] at hc; simp at hc
                · simp [startConversation, e1]
            | false =>
                have e1 := startConversationE_success w s data hg hk hfr hu ht hj
                refine ⟨fun hn => ?_, fun hc => ?_, fun e he hne => ?_⟩
                · simp [startConversation, e1]
                · rw [e1] at hc; cases hc
                · rw [e1] at he; cases he
          · have e1 := startConversationE_badShape w s data hg hk hfr
              (Or.inr (Bool.eq_false_iff.2 ht))
            refine ⟨fun hn => ?_, fun hc => ?_, fun e he hne => ?_⟩
            · rw [e1] at hn; cases hn
            · rw [e1] at hc; simp at hc
            · simp [startConversation, e1]
        · have e1 := startConversationE_badShape w s data hg hk hfr
            (Or.inl (Bool.eq_false_iff.2 hu))
          refine ⟨fun hn => ?_, fun hc => ?_, fun e he hne => ?_⟩
          · rw [e1] at hn; cases hn
          · rw [e1] at hc; simp at hc
          · simp [startConversation, e1]
  · have e1 := startConversationE_noKey w s hg (Bool.eq_false_iff.2 hk)
    refine ⟨fun hn => ?_, fun hc => ?_, fun e he hne => ?_⟩
    · rw [e1] at hn; cases hn
    · simp [startConversation, e1]
    · rw [e1] at he
      simp at he
      exact absurd he.symm hne

/-- Witness for C10 (amended): the successful demo run stores frame 7. -/
theorem callFrame_update_discipline_witness :
    (startConversation demoWorld initState).1.callFrame = some demoWorld.newFrameId := by
  exact (callFrame_update_discipline initState demoWorld rfl).1 (by decide)

end VoiceAgent
